import Mathlib

/-!
Shallow embedding of the accord-alt/tui interactive console core
(src/app.rs, src/commands.rs, src/events.rs, src/ui.rs).

The node and the filesystem persistence layer are external collaborators;
their observable behaviour during one dispatch is supplied as an
environment (`Env`).  Commands submitted to the node channel are recorded
in a trace so that "no node interaction" is provable.  Rust's `&mut App`
together with early `?` returns is modelled by every fallible command
returning the mutated state alongside an optional error (`Out`).
-/

namespace AccordTui

/-- `accord_network::UserMeta` (the part the TUI reads/writes). -/
structure UserMeta where
  display_name : Option String
  deriving Repr, DecidableEq

/-- `accord_network::User` (the part the TUI reads). `is_local` models `is_local()`. -/
structure User where
  id : String
  public_key : String
  meta : UserMeta
  is_local : Bool
  deriving Repr, DecidableEq

/-- `accord_network::Connection` (the part the TUI reads).
`established` models `is_established()`. -/
structure Connection where
  from_id : String
  to_id : String
  established : Bool
  public_key : Option String
  deriving Repr, DecidableEq

/-- `app.rs` `NodeStatus`. -/
inductive NodeStatus where
  | Stopped : NodeStatus
  | Running (addr : String) : NodeStatus
  deriving Repr, DecidableEq

def NodeStatus.isRunning : NodeStatus → Bool
  | .Stopped => false
  | .Running _ => true

/-- serde_json values as the TUI constructs them: `json!({"text": body})`,
the fallback `json!({"raw": s})`, or an arbitrary successfully parsed value
(modelled by its rendered text). -/
inductive Json where
  | textObj (body : String)
  | rawObj (s : String)
  | value (rendered : String)
  deriving Repr, DecidableEq

/-- `accord_network::Message::new(from, to, plugin_type, plugin_body)`;
`serde_json::to_vec` is modelled by keeping the structured record. -/
structure Message where
  from_id : String
  to_id : String
  plugin_type : String
  plugin_body : Json
  deriving Repr, DecidableEq

/-- `accord_network::FullNodeCommand`, without the reply slots (replies are
delivered through the environment). -/
inductive NodeCmd where
  | shutdown
  | createUser (meta : UserMeta)
  | getUser (id : String)
  | getUsers
  | createConnection (to_id : String)
  | acceptConnection (from_id their_public_key : String)
  | storeMessage (data : Message)
  deriving Repr, DecidableEq

/-- `app.rs` `App`: the Session State.  `node_tx` keeps only the presence of
the channel handle; `content_scroll` is a `u16` value kept as a `Nat` with
explicit `% 2^16` / saturation where the code casts or saturates. -/
structure App where
  content_scroll : Nat
  content_lines : List String
  content_title : String
  prompt_input : String
  prompt_history : List String
  prompt_history_idx : Option Nat
  node_tx : Option Unit
  node_status : NodeStatus
  listen_port : Nat
  peers : List String
  users : List User
  connections : List Connection
  messages : List String
  events : List String
  output : List String
  should_quit : Bool
  deriving Repr, DecidableEq

/-- Welcome lines of `App::new`. -/
def welcomeLines : List String :=
  ["Welcome to Accord!", "Starting the P2P node…",
   "Type /help to see all available commands."]

/-- `App::new()`. -/
def App.new : App where
  content_scroll := 0
  content_lines := welcomeLines
  content_title := " Accord "
  prompt_input := ""
  prompt_history := []
  prompt_history_idx := none
  node_tx := none
  node_status := .Stopped
  listen_port := 51030
  peers := []
  users := []
  connections := []
  messages := []
  events := welcomeLines
  output := []
  should_quit := false

/-- `App::set_content`. -/
def App.set_content (a : App) (title : String) (lines : List String) : App :=
  { a with content_title := " " ++ title ++ " ", content_lines := lines,
           content_scroll := 0 }

/-- `App::push_event`. -/
def App.push_event (a : App) (line : String) : App :=
  { a with events := a.events ++ [line] }

/-- `App::push_output`. -/
def App.push_output (a : App) (line : String) : App :=
  { a with output := a.output ++ [line] }

/-- One-shot reply as observed by the console: `none` models the sender
being dropped (`RecvError`), `some r` the delivered `Result`. -/
abbrev Reply (T : Type) := Option (Except String T)

/-- Node-side behaviour during one dispatch: whether the command channel
accepts a send, the `FullNode::run` outcome, the multiaddr parse outcome,
and the reply delivered for each request kind. -/
structure NodeEnv where
  sendOk : Bool
  runResult : Except String Unit
  parseAddr : Except String Unit
  createUserReply : Reply User
  getUserReply : Reply User
  getUsersReply : Reply (List User)
  createConnectionReply : Reply Connection
  acceptConnectionReply : Reply Connection
  storeMessageReply : Reply String

/-- Filesystem persistence behaviour during one dispatch
(`accord_network::storage::fs`).  `none` models an `Err` result whose
message the TUI never reads. -/
structure FsEnv where
  localUser : Option User
  knownUsers : Option (List String)
  knownUser : String → Option UserMeta
  peersLoad : Option (List String)
  connsList : Option (List String)
  loadConn : String → String → Option Connection
  saveLocalUser : Except String Unit
  jsonParse : String → Option Json

structure Env where
  node : NodeEnv
  fs : FsEnv

/-- Result of one command against `&mut App`: the state after all mutations
performed before any early return, the commands successfully submitted on
the node channel, and the error of an early `?` return if one fired. -/
structure Out where
  app : App
  sent : List NodeCmd
  err : Option String
  deriving Repr

/-- Lift an infallible, node-free command. -/
def Out.pureApp (a : App) : Out := ⟨a, [], none⟩

-- ---------------------------------------------------------------------------
-- commands.rs helpers
-- ---------------------------------------------------------------------------

/-- Rust `str::trim_start` (whitespace removal from the front). -/
def strTrimLeft (s : String) : String :=
  ⟨s.data.dropWhile Char.isWhitespace⟩

/-- Rust `str::trim` (whitespace removal from both ends). -/
def strTrim (s : String) : String :=
  ⟨((s.data.dropWhile Char.isWhitespace).reverse.dropWhile Char.isWhitespace).reverse⟩

/-- Rust `String::pop`: drop the last character. -/
def strPop (s : String) : String :=
  ⟨s.data.dropLast⟩

/-- `listen_addr`. -/
def listen_addr (port : Nat) : String :=
  "/ip4/0.0.0.0/tcp/" ++ toString port

/-- `split_command`: split at the first space, trim the start of the rest. -/
def split_command (input : String) : String × String :=
  match input.data.findIdx? (· = ' ') with
  | some i => (⟨input.data.take i⟩, strTrimLeft (String.mk (input.data.drop (i + 1))))
  | none => (input, "")

/-- Rust `str::splitn(2, ' ')`. -/
def splitn2 (s : String) : List String :=
  match s.data.findIdx? (· = ' ') with
  | some i => [⟨s.data.take i⟩, ⟨s.data.drop (i + 1)⟩]
  | none => [s]

/-- Rust `str::splitn(3, ' ')`. -/
def splitn3 (s : String) : List String :=
  match s.data.findIdx? (· = ' ') with
  | some i =>
    let tail : String := ⟨s.data.drop (i + 1)⟩
    match tail.data.findIdx? (· = ' ') with
    | some j => [⟨s.data.take i⟩, ⟨tail.data.take j⟩, ⟨tail.data.drop (j + 1)⟩]
    | none => [⟨s.data.take i⟩, tail]
  | none => [s]

/-- `truncate_id` (ids are ASCII, so char counting models byte counting). -/
def truncate_id (id : String) (max : Nat) : String :=
  if id.length ≤ max then id else (⟨id.data.take max⟩ : String) ++ "…"

/-- Rust `eq_ignore_ascii_case`. -/
def eqIgnoreAsciiCase (a b : String) : Bool :=
  a.data.map Char.toLower == b.data.map Char.toLower

/-- `resolve_nick`: local user first, then every known user, first match. -/
def resolve_nick (fs : FsEnv) (nick : String) : Option String :=
  let fromKnown : Option String :=
    (fs.knownUsers.getD []).findSome? fun id =>
      match fs.knownUser id with
      | some meta =>
        match meta.display_name with
        | some n => if eqIgnoreAsciiCase n nick then some id else none
        | none => none
      | none => none
  match fs.localUser with
  | some lu =>
    match lu.meta.display_name with
    | some n => if eqIgnoreAsciiCase n nick then some lu.id else fromKnown
    | none => fromKnown
  | none => fromKnown

/-- `show_lines`. -/
def show_lines (a : App) (title : String) (lines : List String) : App :=
  a.set_content title lines

/-- `user_lines`. -/
def user_lines (u : User) : List String :=
  let role := if u.is_local then "LOCAL" else "REMOTE"
  let name := u.meta.display_name.getD "(unnamed)"
  ["[" ++ role ++ "]  " ++ name,
   "  id         : " ++ u.id,
   "  public_key : " ++ u.public_key]

/-- Rust `format!("{:>3}", s)` padding used by `/peers`. -/
def pad3 (s : String) : String :=
  if 3 ≤ s.length then s else String.mk (List.replicate (3 - s.length) ' ') ++ s

/-- Rendered text of a body value, as `Display` for `serde_json::Value`
produces it (string escaping inside bodies is not modelled). -/
def Json.render : Json → String
  | .textObj body => "\x7b\"text\":\"" ++ body ++ "\"\x7d"
  | .rawObj s => "\x7b\"raw\":\"" ++ s ++ "\"\x7d"
  | .value r => r

/-- Rust `str::parse::<u16>`: optional leading `+`, at least one digit, all
digits, value within `u16` range. -/
def parseU16 (s : String) : Option Nat :=
  let cs := match s.data with
    | '+' :: tl => tl
    | cs => cs
  if cs.isEmpty then none
  else if cs.all Char.isDigit then
    let v := cs.foldl (fun acc c => acc * 10 + (c.toNat - 48)) 0
    if v ≤ 65535 then some v else none
  else none

-- ---------------------------------------------------------------------------
-- commands.rs: the dispatch targets
-- ---------------------------------------------------------------------------

/-- The static `/help` reference. -/
def helpLines : List String :=
  ["Available commands:",
   "  /startNode                                   Start the P2P node",
   "  /stopNode                                    Stop the P2P node",
   "  /restartNode                                 Restart the P2P node",
   "  /port <port>                                 Change listen port and restart node",
   "  /sync                                        Note: sync is automatic",
   "  /peers                                       Show all known peers in content",
   "  /user                                        Show local user (or create one) in content",
   "  /nick <new_name>                             Change your display name",
   "  /users                                       Show all known users in content",
   "  /user <nick>                                 Show a user by display name in content",
   "  /connection <nick>                           Initiate a connection with a user",
   "  /connections                                 View all connections in content",
   "  /connectionsPending                          View pending connections in content",
   "  /acceptConnection <from_id> <their_pubkey>   Accept an incoming connection",
   "  /declineConnection <connection_id>           Decline a connection",
   "  /message <nick> <body>                       Send a text message",
   "  /messagePlugin <nick> <type> <body>          Send a plugin message",
   "  /messages                                    Show all messages in content",
   "  /events                                      Show all node events in content",
   "  /console                                     Show all output in content",
   "  /help                                        Show all commands in content",
   "  /quit                                        Quit the TUI",
   "",
   "Navigation:  PgUp/PgDn scroll content  |  ↑↓ prompt history  |  Esc quit"]

/-- `cmd_help`. -/
def cmd_help (a : App) : App :=
  let a := a.push_event "[CMD] /help"
  a.set_content "Help" helpLines

/-- `cmd_quit`. -/
def cmd_quit (a : App) : App :=
  let a := a.push_event "[APP] Quit requested."
  { a with should_quit := true }

/-- `cmd_events` (the marker line is pushed into the view twice, and the
scroll is set from the pre-push events length, as in the source; the `as
u16` cast truncates mod 2^16). -/
def cmd_events (a : App) : App :=
  let lines := a.events
  let a := a.push_event "[CMD] /events — showing events."
  let lines_with_fresh := a.events ++ ["[CMD] /events — showing events."]
  let a := a.set_content "Events" lines_with_fresh
  { a with content_scroll := lines.length % 65536 }

/-- `cmd_console`. -/
def cmd_console (a : App) : App :=
  let a := a.push_output "[CMD] /console — showing output log."
  let lines := a.output
  let a := a.set_content "Console" lines
  { a with content_scroll := a.output.length % 65536 }

/-- `cmd_messages`. -/
def cmd_messages (a : App) : App :=
  let a := a.push_event "[CMD] /messages — showing messages."
  let lines := ["Messages  (" ++ toString a.messages.length ++ ")", ""] ++
    (if a.messages.isEmpty then
      ["  No messages yet. Use /message <nick> <body> to send one."]
    else a.messages)
  a.set_content "Messages" lines

/-- `cmd_start_node`. -/
def cmd_start_node (env : Env) (a : App) : Out :=
  if a.node_tx.isSome then
    Out.pureApp (show_lines a "Node" ["Node is already running."])
  else
    let addr_str := listen_addr a.listen_port
    let msg := "Starting node on " ++ addr_str ++ " …"
    let a := a.push_event ("[NODE] " ++ msg)
    let a := a.push_output msg
    match env.node.parseAddr with
    | .error e => ⟨a, [], some ("Invalid listen address: " ++ e)⟩
    | .ok _ =>
      match env.node.runResult with
      | .ok _ =>
        let a := { a with node_tx := some (), node_status := .Running addr_str }
        let okMsg := "Node started on " ++ addr_str ++ "."
        let a := a.push_event ("[NODE] " ++ okMsg)
        let a := a.push_output okMsg
        Out.pureApp (show_lines a "Node" [okMsg])
      | .error e =>
        let errMsg := "Failed to start node: " ++ e
        let a := a.push_event ("[NODE] Start failed: " ++ e)
        let a := a.push_output errMsg
        Out.pureApp (show_lines a "Node" [errMsg])

/-- `cmd_stop_node` (the `Shutdown` send result is discarded with `let _ =`). -/
def cmd_stop_node (env : Env) (a : App) : Out :=
  match a.node_tx with
  | some _ =>
    let sent := if env.node.sendOk then [NodeCmd.shutdown] else []
    let a := { a with node_tx := none, node_status := .Stopped }
    let a := a.push_event "[NODE] Stopped."
    let a := a.push_output "Node stopped."
    ⟨show_lines a "Node" ["Node stopped."], sent, none⟩
  | none =>
    Out.pureApp (show_lines a "Node" ["Node is not running."])

/-- `cmd_restart_node` (the 200 ms sleep has no state effect). -/
def cmd_restart_node (env : Env) (a : App) : Out :=
  let a := a.push_event "[NODE] Restarting…"
  let o1 := cmd_stop_node env a
  match o1.err with
  | some e => ⟨o1.app, o1.sent, some e⟩
  | none =>
    let o2 := cmd_start_node env o1.app
    ⟨o2.app, o1.sent ++ o2.sent, o2.err⟩

/-- `cmd_port`. -/
def cmd_port (env : Env) (a : App) (rest : String) : Out :=
  let arg := strTrim rest
  if arg = "" then
    Out.pureApp (show_lines a "Port"
      ["Current port: " ++ toString a.listen_port ++ "  |  Usage: /port <port>"])
  else
    match parseU16 arg with
    | none => ⟨a, [], some ("\x27" ++ arg ++ "\x27 is not a valid port number (1–65535).")⟩
    | some new_port =>
      if new_port = 0 then
        Out.pureApp (show_lines a "Port" ["Port must be between 1 and 65535."])
      else
        let old_port := a.listen_port
        let a := { a with listen_port := new_port }
        let a := a.push_event
          ("[NODE] Port changed: " ++ toString old_port ++ " → " ++ toString new_port)
        let a := a.push_output
          ("Port changed to " ++ toString new_port ++ ". Restarting node…")
        cmd_restart_node env a

/-- `cmd_sync`. -/
def cmd_sync (a : App) : App :=
  if a.node_tx.isNone then
    show_lines a "Sync" ["Node is not running. Use /startNode first."]
  else
    let msg := "Sync is continuous — the node syncs automatically with peers via gossipsub."
    let a := a.push_event "[SYNC] Manual sync requested."
    let a := a.push_output msg
    show_lines a "Sync" [msg]

/-- `cmd_peers` (`load_peers(None).unwrap_or_default()`). -/
def cmd_peers (env : Env) (a : App) : Out :=
  let peers := env.fs.peersLoad.getD []
  let a := { a with peers := peers }
  let a := a.push_event ("[PEERS] Refreshed (" ++ toString peers.length ++ " known).")
  let a := a.push_output ("Peers: " ++ toString peers.length ++ " known.")
  let lines := ["Known peers  (" ++ toString peers.length ++ ")", ""] ++
    (if peers.isEmpty then
      ["  No peers discovered yet. Start the node and wait for mDNS/Kademlia."]
    else
      peers.enum.map fun ip =>
        "  " ++ pad3 (toString (ip.1 + 1)) ++ ".  " ++ ip.2)
  Out.pureApp (a.set_content "Peers" lines)

/-- `iter_mut().find(|u| u.is_local())` name overwrite used by `cmd_nick`. -/
def setFirstLocalName (users : List User) (name : String) : List User :=
  match users.findIdx? (fun u => u.is_local) with
  | some i =>
    match users.get? i with
    | some u => users.set i { u with meta := { u.meta with display_name := some name } }
    | none => users
  | none => users

/-- `cmd_nick`. -/
def cmd_nick (env : Env) (a : App) (rest : String) : Out :=
  let new_name := strTrim rest
  if new_name = "" then
    Out.pureApp (show_lines a "Nick" ["Usage: /nick <new_name>"])
  else
    match env.fs.localUser with
    | none =>
      Out.pureApp (show_lines a "Nick"
        ["No local user found. Use /user to create one first."])
    | some user =>
      let old_name := user.meta.display_name.getD "(unnamed)"
      match env.fs.saveLocalUser with
      | .error e => ⟨a, [], some e⟩
      | .ok _ =>
        let a := { a with users := setFirstLocalName a.users new_name }
        let msg := "Display name changed: " ++ old_name ++ " → " ++ new_name
        let a := a.push_event ("[NICK] " ++ old_name ++ " → " ++ new_name)
        let a := a.push_output msg
        Out.pureApp (show_lines a "Nick" [msg])

/-- `cmd_user`, user-creation tail (shared by the no-arg and
unresolved-nick paths). -/
def cmd_user_create (env : Env) (a : App) (arg : String) : Out :=
  let meta : UserMeta := ⟨if arg = "" then none else some arg⟩
  if env.node.sendOk = false then ⟨a, [], some "Node channel closed"⟩
  else match env.node.createUserReply with
  | none => ⟨a, [.createUser meta], some "channel closed"⟩
  | some (.ok user) =>
    let name := user.meta.display_name.getD "(unnamed)"
    let a := a.push_event
      ("[USER] Created: " ++ name ++ " (" ++ truncate_id user.id 16 ++ ")")
    let a := a.push_output ("User created: " ++ name)
    let lines := user_lines user
    let a := if a.users.any (fun u => u.id == user.id) then a
             else { a with users := a.users ++ [user] }
    ⟨a.set_content "User" lines, [.createUser meta], none⟩
  | some (.error e) =>
    let a := a.push_event ("[USER] Create failed: " ++ e)
    ⟨show_lines a "User" ["Error creating user: " ++ e], [.createUser meta], none⟩

/-- `cmd_user` from the `node_tx` check on. -/
def cmd_user_tail (env : Env) (a : App) (arg : String) : Out :=
  match a.node_tx with
  | none =>
    Out.pureApp (show_lines a "User" ["Node is not running. Use /startNode first."])
  | some _ =>
    if arg = "" then
      match env.fs.localUser with
      | some user => Out.pureApp (a.set_content "User" (user_lines user))
      | none =>
        let a := a.push_output "No local user found — creating one…"
        cmd_user_create env a arg
    else cmd_user_create env a arg

/-- `cmd_show_user_by_id`. -/
def cmd_show_user_by_id (env : Env) (a : App) (id : String) : Out :=
  match a.node_tx with
  | none =>
    Out.pureApp (show_lines a "User" ["Node is not running. Use /startNode first."])
  | some _ =>
    if env.node.sendOk = false then ⟨a, [], some "Node channel closed"⟩
    else match env.node.getUserReply with
    | none => ⟨a, [.getUser id], some "channel closed"⟩
    | some (.ok user) =>
      ⟨a.set_content "User" (user_lines user), [.getUser id], none⟩
    | some (.error e) =>
      ⟨show_lines a "User" ["User not found: " ++ e], [.getUser id], none⟩

/-- `cmd_user`. -/
def cmd_user (env : Env) (a : App) (rest : String) : Out :=
  let arg := strTrim rest
  if arg ≠ "" then
    match resolve_nick env.fs arg with
    | some id => cmd_show_user_by_id env a id
    | none => cmd_user_tail env a arg
  else cmd_user_tail env a arg

/-- `cmd_users` (filesystem fallback when the node is stopped). -/
def cmd_users (env : Env) (a : App) : Out :=
  match a.node_tx with
  | none =>
    let ids := env.fs.knownUsers.getD []
    let lines := ["Known users  (" ++ toString ids.length ++ ")", ""] ++
      (if ids.isEmpty then ["  No remote users on record."]
       else ids.map fun id =>
         let name := ((env.fs.knownUser id).bind (fun m => m.display_name)).getD "(unnamed)"
         "  " ++ name ++ "  " ++ id)
    Out.pureApp (a.set_content "Users" lines)
  | some _ =>
    if env.node.sendOk = false then ⟨a, [], some "Node channel closed"⟩
    else match env.node.getUsersReply with
    | none => ⟨a, [.getUsers], some "channel closed"⟩
    | some (.ok users) =>
      let a := { a with users := users }
      let a := a.push_event ("[USERS] Refreshed (" ++ toString users.length ++ " found).")
      let a := a.push_output ("Users: " ++ toString users.length ++ " found.")
      let lines := ["Known users  (" ++ toString users.length ++ ")", ""] ++
        (if users.isEmpty then ["  No remote users discovered yet."]
         else users.map fun u =>
           let label := if u.is_local then "LOCAL " else "REMOTE"
           let name := u.meta.display_name.getD "(unnamed)"
           "  [" ++ label ++ "]  " ++ name ++ "  —  " ++ truncate_id u.id 24)
      ⟨a.set_content "Users" lines, [.getUsers], none⟩
    | some (.error e) =>
      let a := a.push_event ("[USERS] Fetch failed: " ++ e)
      ⟨show_lines a "Users" ["Error fetching users: " ++ e], [.getUsers], none⟩

/-- `cmd_connection`. -/
def cmd_connection (env : Env) (a : App) (rest : String) : Out :=
  let arg := strTrim rest
  if arg = "" then
    Out.pureApp (show_lines a "Connection" ["Usage: /connection <nick>"])
  else
    match resolve_nick env.fs arg with
    | none =>
      Out.pureApp (show_lines a "Connection"
        ["No user found with nick \x27" ++ arg ++ "\x27. Use /users to see known users."])
    | some to_id =>
      match a.node_tx with
      | none =>
        Out.pureApp (show_lines a "Connection"
          ["Node is not running. Use /startNode first."])
      | some _ =>
        if env.node.sendOk = false then ⟨a, [], some "Node channel closed"⟩
        else match env.node.createConnectionReply with
        | none => ⟨a, [.createConnection to_id], some "channel closed"⟩
        | some (.ok conn) =>
          let state := if conn.established then "established" else "pending"
          let a := a.push_event
            ("[CONN] → " ++ truncate_id conn.to_id 16 ++ " [" ++ state ++ "]")
          let a := a.push_output
            ("Connection initiated with " ++ arg ++ " [" ++ state ++ "].")
          let lines := ["Connection initiated  [" ++ state ++ "]", "",
            "  from  : " ++ conn.from_id,
            "  to    : " ++ conn.to_id,
            "  state : " ++ state]
          let a := if a.connections.any (fun c => c.to_id == conn.to_id) then a
                   else { a with connections := a.connections ++ [conn] }
          ⟨a.set_content "Connection" lines, [.createConnection to_id], none⟩
        | some (.error e) =>
          let a := a.push_event ("[CONN] Create failed: " ++ e)
          ⟨show_lines a "Connection" ["Error creating connection: " ++ e],
           [.createConnection to_id], none⟩

/-- `cmd_connections` (unconditional cache replacement). -/
def cmd_connections (env : Env) (a : App) : Out :=
  let from_id := (env.fs.localUser.map (fun u => u.id)).getD ""
  let to_ids := env.fs.connsList.getD []
  let conns := to_ids.filterMap fun to_id => env.fs.loadConn from_id to_id
  let a := { a with connections := conns }
  let lines := ["Connections  (" ++ toString conns.length ++ ")", ""] ++
    (if conns.isEmpty then ["  No connections on record."]
     else conns.map fun c =>
       let state := if c.established then "established" else "pending   "
       "  [" ++ state ++ "]  " ++ truncate_id c.from_id 16 ++ " → " ++
         truncate_id c.to_id 16)
  let a := a.push_output ("Connections: " ++ toString conns.length ++ ".")
  Out.pureApp (a.set_content "Connections" lines)

/-- `cmd_connections_pending` (read-only view). -/
def cmd_connections_pending (env : Env) (a : App) : Out :=
  let from_id := (env.fs.localUser.map (fun u => u.id)).getD ""
  let to_ids := env.fs.connsList.getD []
  let pending := (to_ids.filterMap fun to_id => env.fs.loadConn from_id to_id).filter
    (fun c => !c.established)
  let lines := ["Pending connections  (" ++ toString pending.length ++ ")", ""] ++
    (if pending.isEmpty then ["  No pending connections."]
     else pending.flatMap fun c =>
       ["  " ++ truncate_id c.from_id 16 ++ " → " ++ truncate_id c.to_id 16] ++
       (match c.public_key with
        | some pk => ["    our_public_key: " ++ pk]
        | none => []))
  Out.pureApp (a.set_content "Connections (Pending)" lines)

/-- `cmd_accept_connection`. -/
def cmd_accept_connection (env : Env) (a : App) (rest : String) : Out :=
  let parts := splitn2 rest
  if parts.length < 2 then
    Out.pureApp (show_lines a "Accept Connection"
      ["Usage: /acceptConnection <from_id> <their_public_key>"])
  else
    let from_id := strTrim (parts.getD 0 "")
    let their_pub_key := strTrim (parts.getD 1 "")
    match a.node_tx with
    | none =>
      Out.pureApp (show_lines a "Accept Connection"
        ["Node is not running. Use /startNode first."])
    | some _ =>
      if env.node.sendOk = false then ⟨a, [], some "Node channel closed"⟩
      else match env.node.acceptConnectionReply with
      | none => ⟨a, [.acceptConnection from_id their_pub_key], some "channel closed"⟩
      | some (.ok conn) =>
        let a := a.push_event
          ("[CONN] Accepted from " ++ truncate_id conn.from_id 16 ++ " — DH key established.")
        let a := a.push_output ("Connection with " ++ conn.from_id ++ " accepted.")
        let lines := ["Connection accepted  [established]", "",
          "  from  : " ++ conn.from_id,
          "  to    : " ++ conn.to_id]
        let conns := match a.connections.findIdx? (fun c => c.from_id == conn.from_id) with
          | some i => a.connections.set i conn
          | none => a.connections ++ [conn]
        let a := { a with connections := conns }
        ⟨a.set_content "Accept Connection" lines,
         [.acceptConnection from_id their_pub_key], none⟩
      | some (.error e) =>
        let a := a.push_event ("[CONN] Accept failed: " ++ e)
        ⟨show_lines a "Accept Connection" ["Error accepting connection: " ++ e],
         [.acceptConnection from_id their_pub_key], none⟩

/-- `cmd_decline_connection` (purely local). -/
def cmd_decline_connection (a : App) (rest : String) : App :=
  let user_id := strTrim rest
  if user_id = "" then
    show_lines a "Decline Connection" ["Usage: /declineConnection <connection_id>"]
  else
    let a := { a with connections :=
      a.connections.filter (fun c => c.to_id != user_id && c.from_id != user_id) }
    let a := a.push_event
      ("[CONN] Declined connection with " ++ truncate_id user_id 16 ++ ".")
    show_lines a "Decline Connection"
      ["Connection with " ++ user_id ++ " removed locally.",
       "(Network-level decline not yet implemented in the library.)"]

/-- `send_message`. -/
def send_message (env : Env) (a : App) (nick to_id plugin_type : String)
    (plugin_body : Json) : Out :=
  match a.node_tx with
  | none =>
    Out.pureApp (show_lines a "Message" ["Node is not running. Use /startNode first."])
  | some _ =>
    match env.fs.localUser with
    | none => ⟨a, [], some "No local user — run /user first"⟩
    | some local_user =>
      let msg : Message := ⟨local_user.id, to_id, plugin_type, plugin_body⟩
      if env.node.sendOk = false then ⟨a, [], some "Node channel closed"⟩
      else match env.node.storeMessageReply with
      | none => ⟨a, [.storeMessage msg], some "channel closed"⟩
      | some (.ok hash) =>
        let line := "[" ++ truncate_id local_user.id 8 ++ "→" ++ truncate_id to_id 8 ++
          "]  [" ++ plugin_type ++ "]  " ++ plugin_body.render
        let a := { a with messages := a.messages ++ [line] }
        let a := a.push_event ("[MSG] → " ++ nick ++ " [" ++ plugin_type ++
          "] (hash: " ++ truncate_id hash 12 ++ ")")
        let a := a.push_output ("Message sent to " ++ nick ++ " (hash: " ++ hash ++ ").")
        ⟨a.set_content "Message"
          ["Message sent  [" ++ plugin_type ++ "]", "",
           "  to   : " ++ nick ++ " (" ++ truncate_id to_id 16 ++ ")",
           "  body : " ++ plugin_body.render,
           "  hash : " ++ hash], [.storeMessage msg], none⟩
      | some (.error e) =>
        let a := a.push_event ("[MSG] Send failed: " ++ e)
        ⟨show_lines a "Message" ["Error storing message: " ++ e],
         [.storeMessage msg], none⟩

/-- `cmd_message`. -/
def cmd_message (env : Env) (a : App) (rest : String) : Out :=
  let parts := splitn2 rest
  if parts.length < 2 then
    Out.pureApp (show_lines a "Message" ["Usage: /message <nick> <body>"])
  else
    let nick := strTrim (parts.getD 0 "")
    let body := strTrim (parts.getD 1 "")
    match resolve_nick env.fs nick with
    | none =>
      Out.pureApp (show_lines a "Message"
        ["No user found with nick \x27" ++ nick ++ "\x27. Use /users to see known users."])
    | some to_id => send_message env a nick to_id "text" (Json.textObj body)

/-- `cmd_message_plugin`. -/
def cmd_message_plugin (env : Env) (a : App) (rest : String) : Out :=
  let parts := splitn3 rest
  if parts.length < 3 then
    Out.pureApp (show_lines a "Message"
      ["Usage: /messagePlugin <nick> <plugin_type> <plugin_body>"])
  else
    let nick := strTrim (parts.getD 0 "")
    let plugin_type := strTrim (parts.getD 1 "")
    let plugin_body_str := strTrim (parts.getD 2 "")
    match resolve_nick env.fs nick with
    | none =>
      Out.pureApp (show_lines a "Message"
        ["No user found with nick \x27" ++ nick ++ "\x27. Use /users to see known users."])
    | some to_id =>
      let plugin_body := (env.fs.jsonParse plugin_body_str).getD (Json.rawObj plugin_body_str)
      send_message env a nick to_id plugin_type plugin_body

/-- Unknown-command arm of `execute`. -/
def cmd_unknown (a : App) (cmd : String) : App :=
  let msg := "Unknown command: " ++ cmd ++ ". Type /help for a list."
  let a := a.push_event ("[CMD] Unknown: " ++ cmd)
  show_lines a "Error" [msg]

/-- The dispatch table of `commands::execute`, after the line has been
split into the command name and the argument string. -/
def dispatch (env : Env) (a : App) (cmd rest : String) : Out :=
  if cmd = "/help" then Out.pureApp (cmd_help a)
    else if cmd = "/quit" then Out.pureApp (cmd_quit a)
    else if cmd = "/events" then Out.pureApp (cmd_events a)
    else if cmd = "/console" then Out.pureApp (cmd_console a)
    else if cmd = "/messages" then Out.pureApp (cmd_messages a)
    else if cmd = "/startNode" then cmd_start_node env a
    else if cmd = "/stopNode" then cmd_stop_node env a
    else if cmd = "/restartNode" then cmd_restart_node env a
    else if cmd = "/port" then cmd_port env a rest
    else if cmd = "/sync" then Out.pureApp (cmd_sync a)
    else if cmd = "/peers" then cmd_peers env a
    else if cmd = "/nick" then cmd_nick env a rest
    else if cmd = "/user" then cmd_user env a rest
    else if cmd = "/users" then cmd_users env a
    else if cmd = "/connection" then cmd_connection env a rest
    else if cmd = "/connections" then cmd_connections env a
    else if cmd = "/connectionsPending" then cmd_connections_pending env a
    else if cmd = "/acceptConnection" then cmd_accept_connection env a rest
    else if cmd = "/declineConnection" then Out.pureApp (cmd_decline_connection a rest)
    else if cmd = "/message" then cmd_message env a rest
    else if cmd = "/messagePlugin" then cmd_message_plugin env a rest
    else Out.pureApp (cmd_unknown a cmd)

/-- `commands::execute`. -/
def execute (env : Env) (a : App) (raw : String) : Out :=
  if strTrim raw = "" then Out.pureApp a
  else dispatch env a (split_command (strTrim raw)).1 (split_command (strTrim raw)).2

-- ---------------------------------------------------------------------------
-- events.rs: key handling and the prompt/history machine
-- ---------------------------------------------------------------------------

/-- The key categories `handle_key` distinguishes. -/
inductive KeyCode where
  | ctrlC | esc | pageUp | pageDown | enter | backspace | up | down
  | char (c : Char)
  | other
  deriving Repr, DecidableEq

/-- `scroll_history_up`. -/
def scroll_history_up (a : App) : App :=
  if a.prompt_history.isEmpty then a
  else
    let new_idx := match a.prompt_history_idx with
      | none => a.prompt_history.length - 1
      | some i => i - 1
    { a with prompt_history_idx := some new_idx,
             prompt_input := a.prompt_history.getD new_idx "" }

/-- `scroll_history_down`. -/
def scroll_history_down (a : App) : App :=
  match a.prompt_history_idx with
  | none => a
  | some i =>
    if i + 1 < a.prompt_history.length then
      { a with prompt_history_idx := some (i + 1),
               prompt_input := a.prompt_history.getD (i + 1) "" }
    else
      { a with prompt_history_idx := none, prompt_input := "" }

/-- Result of `handle_key`: state, node submissions, and the returned
quit flag. -/
structure KeyOut where
  app : App
  sent : List NodeCmd
  quit : Bool
  deriving Repr

/-- `events::handle_key`. -/
def handle_key (env : Env) (a : App) (k : KeyCode) : KeyOut :=
  match k with
  | .ctrlC => ⟨a, [], true⟩
  | .esc => ⟨a, [], true⟩
  | .pageUp => ⟨{ a with content_scroll := a.content_scroll - 10 }, [], false⟩
  | .pageDown => ⟨{ a with content_scroll := min (a.content_scroll + 10) 65535 }, [], false⟩
  | .enter =>
    let input := strTrim a.prompt_input
    if input = "" then ⟨a, [], a.should_quit⟩
    else
      let a := if a.prompt_history.getLast? = some input then a
               else { a with prompt_history := a.prompt_history ++ [input] }
      let a := { a with prompt_history_idx := none, prompt_input := "" }
      let o := execute env a input
      match o.err with
      | some e =>
        let msg := "Error: " ++ e
        let app := o.app.push_event ("[ERR] " ++ e)
        let app := app.push_output msg
        let app := { app with content_lines := app.content_lines ++ [msg] }
        ⟨app, o.sent, app.should_quit⟩
      | none => ⟨o.app, o.sent, o.app.should_quit⟩
  | .backspace =>
    ⟨{ a with prompt_input := strPop a.prompt_input, prompt_history_idx := none },
     [], a.should_quit⟩
  | .up => ⟨scroll_history_up a, [], a.should_quit⟩
  | .down => ⟨scroll_history_down a, [], a.should_quit⟩
  | .char c =>
    let input := if a.prompt_input = "" && c ≠ '/' then a.prompt_input ++ "/" else a.prompt_input
    ⟨{ a with prompt_input := input.push c, prompt_history_idx := none }, [], a.should_quit⟩
  | .other => ⟨a, [], a.should_quit⟩

-- ---------------------------------------------------------------------------
-- ui.rs: the render-time clamp
-- ---------------------------------------------------------------------------

/-- The scroll offset `render_content` actually uses. -/
def scroll_offset (content_scroll total visible_height : Nat) : Nat :=
  if total ≤ visible_height then 0
  else min content_scroll (total - visible_height)

-- ---------------------------------------------------------------------------
-- Derived notions used by the statements
-- ---------------------------------------------------------------------------

/-- The §4.2 consistency condition: the handle is present exactly when the
status is `Running`. -/
def node_consistent (a : App) : Bool :=
  a.node_tx.isSome == a.node_status.isRunning

/-- The four cached collections are untouched. -/
def cachesUnchanged (a b : App) : Prop :=
  b.peers = a.peers ∧ b.users = a.users ∧
  b.connections = a.connections ∧ b.messages = a.messages

/-- Press Up `k` times. -/
def iterUp : Nat → App → App
  | 0, a => a
  | k + 1, a => iterUp k (scroll_history_up a)

/-- Press Down `k` times. -/
def iterDown : Nat → App → App
  | 0, a => a
  | k + 1, a => iterDown k (scroll_history_down a)

/-- Run a sequence of key events, each with its own collaborator
behaviour. -/
def runKeys (a : App) : List (Env × KeyCode) → App
  | [] => a
  | (e, k) :: rest => runKeys (handle_key e a k).app rest

/-- A concrete environment: healthy channel, node that starts, all replies
and filesystem reads absent. -/
def envDefault : Env where
  node :=
    { sendOk := true, runResult := .ok (), parseAddr := .ok (),
      createUserReply := none, getUserReply := none, getUsersReply := none,
      createConnectionReply := none, acceptConnectionReply := none,
      storeMessageReply := none }
  fs :=
    { localUser := none, knownUsers := none, knownUser := fun _ => none,
      peersLoad := none, connsList := none, loadConn := fun _ _ => none,
      saveLocalUser := .ok (), jsonParse := fun _ => none }

/-- A session sitting at the Live prompt with buffer `"x"` and one history
entry. -/
def c5start : App :=
  { App.new with prompt_input := "x", prompt_history := ["a"] }

/-- A known remote user resolvable by the nick `bob`. -/
def userBob : User := ⟨"idB", "pkB", ⟨some "bob"⟩, false⟩

/-- A pending connection record towards `userBob`. -/
def connAB : Connection := ⟨"idA", "idB", false, none⟩

/-- A second reply record for the same target (established this time). -/
def connAB2 : Connection := ⟨"idA", "idB", true, none⟩

/-- An incoming connection record from `idC`, as an accept reply. -/
def connCA : Connection := ⟨"idC", "idA", true, none⟩

/-- A later accept reply from the same peer, distinguishable from the
first. -/
def connCA2 : Connection := ⟨"idC", "idA", true, some "pkC"⟩

/-- Environment in which `bob` resolves to `idB` via the known-user store. -/
def fsBob : FsEnv :=
  { envDefault.fs with
    knownUsers := some ["idB"],
    knownUser := fun id => if id = "idB" then some ⟨some "bob"⟩ else none }

/-- Healthy node that answers `/connection` with `connAB`. -/
def envConn1 : Env :=
  { node := { envDefault.node with createConnectionReply := some (.ok connAB) },
    fs := fsBob }

/-- Healthy node that answers `/connection` with `connAB2`. -/
def envConn2 : Env :=
  { node := { envDefault.node with createConnectionReply := some (.ok connAB2) },
    fs := fsBob }

/-- Healthy node that answers `/acceptConnection` with `connCA`. -/
def envAcc1 : Env :=
  { envDefault with
    node := { envDefault.node with acceptConnectionReply := some (.ok connCA) } }

/-- Healthy node that answers `/acceptConnection` with `connCA2`. -/
def envAcc2 : Env :=
  { envDefault with
    node := { envDefault.node with acceptConnectionReply := some (.ok connCA2) } }

/-- A session with the node up. -/
def appRunning : App :=
  { App.new with node_tx := some (), node_status := .Running "addr" }

-- ---------------------------------------------------------------------------
-- Theorems
-- ---------------------------------------------------------------------------

/-- C9: the scroll offset used when rendering the content view always lies
in `[0, max 0 (total - visibleHeight)]`; the write path (PageDown) only
saturating-adds at the `u16` bound, so the stored value may exceed the
valid range — concretely, from `App.new` with `content_scroll = 65530`,
PageDown stores `65535` (saturating at the `u16` bound), far above the bound for the 3 welcome lines at
height 10, yet rendering uses offset `0`. -/
theorem C9_scroll_clamped_at_render :
    (∀ s total h, scroll_offset s total h ≤ max 0 (total - h)) ∧
    (∀ env a, (handle_key env a .pageDown).app.content_scroll =
        min (a.content_scroll + 10) 65535) ∧
    ((handle_key envDefault { App.new with content_scroll := 65530 }
        KeyCode.pageDown).app.content_scroll = 65535 ∧
      65535 > max 0 (App.new.content_lines.length - 10) ∧
      scroll_offset 65535 App.new.content_lines.length 10 = 0) := by
  refine ⟨fun s total h => ?_, fun env a => rfl, by decide, by decide, by decide⟩
  unfold scroll_offset
  split <;> omega

/-- C10: `/stopNode` with a present handle never errors: the `Shutdown`
send result is discarded, the handle and status are cleared together, and
the "Node stopped." view is rendered — regardless of whether the channel
send succeeds. -/
theorem C10_stop_node_never_fails (env : Env) (a : App)
    (h : a.node_tx.isSome = true) :
    (cmd_stop_node env a).err = none ∧
    (cmd_stop_node env a).app.node_tx = none ∧
    (cmd_stop_node env a).app.node_status = NodeStatus.Stopped ∧
    (cmd_stop_node env a).app.content_lines = ["Node stopped."] ∧
    (cmd_stop_node env a).app.content_title = " Node " := by
  match ha : a.node_tx with
  | some _ =>
    simp [cmd_stop_node, ha, show_lines, App.set_content, App.push_event,
      App.push_output]
  | none => simp [ha] at h

theorem C10_stop_node_never_fails_witness :
    (cmd_stop_node { envDefault with node := { envDefault.node with sendOk := false } }
      { App.new with node_tx := some (), node_status := .Running "x" }).err = none ∧
    (cmd_stop_node { envDefault with node := { envDefault.node with sendOk := false } }
      { App.new with node_tx := some (), node_status := .Running "x" }).app.node_tx = none :=
  ⟨(C10_stop_node_never_fails
      { envDefault with node := { envDefault.node with sendOk := false } }
      { App.new with node_tx := some (), node_status := .Running "x" } rfl).1,
   (C10_stop_node_never_fails
      { envDefault with node := { envDefault.node with sendOk := false } }
      { App.new with node_tx := some (), node_status := .Running "x" } rfl).2.1⟩

/-- C8 counterexample: the claim that a failed `/peers` refresh leaves the
prior peers cache untouched is false — with one cached peer and a failing
persistence read, the cache is replaced by the empty list. -/
theorem C8_counterexample :
    (cmd_peers envDefault { App.new with peers := ["peerA"] }).app.peers ≠
      ({ App.new with peers := ["peerA"] } : App).peers := by
  decide

/-- C8 (amended): when the persistence read behind `/peers` fails, the
failure is absorbed by `unwrap_or_default`: the peers cache is
unconditionally replaced with the empty list (prior entries do not
survive) and the view shows the generic empty-state message, not an error
text; the command itself still returns without error. -/
theorem C8_peers_failure_replaces_cache (env : Env) (a : App)
    (h : env.fs.peersLoad = none) :
    (cmd_peers env a).app.peers = [] ∧
    (cmd_peers env a).app.content_lines =
      ["Known peers  (0)", "",
       "  No peers discovered yet. Start the node and wait for mDNS/Kademlia."] ∧
    (cmd_peers env a).err = none := by
  simp [cmd_peers, h, show_lines, App.set_content, App.push_event,
    App.push_output, Out.pureApp]
  decide

theorem C8_peers_failure_replaces_cache_witness :
    (cmd_peers envDefault { App.new with peers := ["peerA"] }).app.peers = [] :=
  (C8_peers_failure_replaces_cache envDefault _ rfl).1

/-- C7: `/port` with an argument that does not parse as an integer in
`[1,65535]` is rejected with the range error and performs no state change
(in particular `listen_port` keeps its value and nothing is submitted to
the node); `/port 0` is rejected with the explicit range message; `/port`
with no argument only prints the current port. -/
theorem C7_port_rejects_bad_arguments (env : Env) (a : App) (rest : String) :
    (strTrim rest = "" →
      (cmd_port env a rest).app =
        show_lines a "Port"
          ["Current port: " ++ toString a.listen_port ++ "  |  Usage: /port <port>"] ∧
      (cmd_port env a rest).app.listen_port = a.listen_port ∧
      (cmd_port env a rest).sent = [] ∧ (cmd_port env a rest).err = none) ∧
    (parseU16 (strTrim rest) = none → strTrim rest ≠ "" →
      (cmd_port env a rest).app = a ∧
      (cmd_port env a rest).sent = [] ∧
      (cmd_port env a rest).err =
        some ("\x27" ++ strTrim rest ++ "\x27 is not a valid port number (1–65535).")) ∧
    (parseU16 (strTrim rest) = some 0 →
      (cmd_port env a rest).app =
        show_lines a "Port" ["Port must be between 1 and 65535."] ∧
      (cmd_port env a rest).app.listen_port = a.listen_port ∧
      (cmd_port env a rest).sent = [] ∧ (cmd_port env a rest).err = none) := by
  refine ⟨fun he => ?_, fun hp hne => ?_, fun hp => ?_⟩
  · simp [cmd_port, he, show_lines, App.set_content, Out.pureApp]
  · simp [cmd_port, hne, hp, Out.pureApp]
  · have hne : strTrim rest ≠ "" := by
      intro he
      rw [he] at hp
      simp [parseU16] at hp
    simp [cmd_port, hne, hp, show_lines, App.set_content, Out.pureApp]

theorem C7_port_rejects_bad_arguments_witness :
    (cmd_port envDefault App.new "70000").app = App.new ∧
    (cmd_port envDefault App.new "0").app.listen_port = App.new.listen_port ∧
    (cmd_port envDefault App.new "").app.listen_port = App.new.listen_port :=
  ⟨((C7_port_rejects_bad_arguments envDefault App.new "70000").2.1 (by decide)
      (by decide)).1,
   ((C7_port_rejects_bad_arguments envDefault App.new "0").2.2 (by decide)).2.1,
   (((C7_port_rejects_bad_arguments envDefault App.new "").1 (by decide)).2.1)⟩

-- ---------------------------------------------------------------------------
-- C5: history browsing round trips
-- ---------------------------------------------------------------------------

lemma iterUp_from_some (j : Nat) : ∀ (a : App) (i : Nat),
    a.prompt_history ≠ [] → a.prompt_history_idx = some i →
    a.prompt_input = a.prompt_history.getD i "" →
    iterUp j a = { a with prompt_history_idx := some (i - j),
                          prompt_input := a.prompt_history.getD (i - j) "" } := by
  induction j with
  | zero =>
    intro a i hne hidx hinp
    cases a
    simp_all [iterUp]
  | succ j ih =>
    intro a i hne hidx hinp
    have hemp : a.prompt_history.isEmpty = false := by
      cases hh : a.prompt_history <;> simp_all
    have hup : scroll_history_up a =
        { a with prompt_history_idx := some (i - 1),
                 prompt_input := a.prompt_history.getD (i - 1) "" } := by
      simp [scroll_history_up, hemp, hidx]
    show iterUp j (scroll_history_up a) = _
    rw [hup, ih _ (i - 1) (by simpa using hne) rfl (by simp)]
    have harith : i - 1 - j = i - (j + 1) := by omega
    simp [harith]

lemma iterDown_exits : ∀ (d : Nat) (b : App) (i : Nat),
    b.prompt_history_idx = some i →
    i + d = b.prompt_history.length → 1 ≤ d →
    iterDown d b = { b with prompt_history_idx := none, prompt_input := "" } := by
  intro d
  induction d with
  | zero => intro b i _ _ hd; omega
  | succ d ih =>
    intro b i hidx hlen _
    show iterDown d (scroll_history_down b) = _
    by_cases hd : d = 0
    · subst hd
      have hnt : ¬ (i + 1 < b.prompt_history.length) := by omega
      simp [iterDown, scroll_history_down, hidx, hnt]
    · have hlt : i + 1 < b.prompt_history.length := by omega
      have hdown : scroll_history_down b =
          { b with prompt_history_idx := some (i + 1),
                   prompt_input := b.prompt_history.getD (i + 1) "" } := by
        simp [scroll_history_down, hidx, hlt]
      rw [hdown, ih _ (i + 1) rfl (by simp; omega) (by omega)]

lemma up_down_round (a : App) (k : Nat)
    (hidx : a.prompt_history_idx = none) (hk1 : 1 ≤ k)
    (hk : a.prompt_history.length ≥ k) :
    iterDown k (iterUp k a) =
      { a with prompt_history_idx := none, prompt_input := "" } := by
  obtain ⟨j, rfl⟩ : ∃ j, k = j + 1 := ⟨k - 1, by omega⟩
  have hne : a.prompt_history ≠ [] := by
    intro h
    rw [h] at hk
    simp at hk
  have hemp : a.prompt_history.isEmpty = false := by
    cases hh : a.prompt_history <;> simp_all
  have hup : scroll_history_up a =
      { a with prompt_history_idx := some (a.prompt_history.length - 1),
               prompt_input := a.prompt_history.getD (a.prompt_history.length - 1) "" } := by
    simp [scroll_history_up, hemp, hidx]
  show iterDown (j + 1) (iterUp j (scroll_history_up a)) = _
  rw [hup, iterUp_from_some j _ _ (by simpa using hne) rfl (by simp)]
  rw [iterDown_exits (j + 1) _ (a.prompt_history.length - 1 - j) rfl
    (by simp; omega) (by omega)]

/-- C5 counterexample: from Live with buffer `"x"` and history `["a"]`,
one Up then one Down (with `k = 1 ≤ len`) lands back on Live but with the
buffer cleared, not restored to `"x"`: the claim's "original buffer
content" part is false. -/
theorem C5_counterexample :
    c5start.prompt_history_idx = none ∧
    1 ≤ c5start.prompt_history.length ∧
    (iterDown 1 (iterUp 1 c5start)).prompt_history_idx = none ∧
    (iterDown 1 (iterUp 1 c5start)).prompt_input ≠ c5start.prompt_input := by
  refine ⟨by decide, by decide, by decide, by decide⟩

/-- C5 (amended): from Live, Up `k` times then Down `k` times with
`k ≤ len(history)` returns to Live with the history intact, but the buffer
is cleared, since `scroll_history_down` clears the buffer when leaving
Browsing; the original content survives only when `k = 0`. -/
theorem C5_up_then_down_returns_to_live (a : App) (k : Nat)
    (hidx : a.prompt_history_idx = none)
    (hk : k ≤ a.prompt_history.length) :
    (iterDown k (iterUp k a)).prompt_history_idx = none ∧
    (iterDown k (iterUp k a)).prompt_history = a.prompt_history ∧
    (iterDown k (iterUp k a)).prompt_input =
      (if k = 0 then a.prompt_input else "") := by
  cases k with
  | zero => simp [iterUp, iterDown, hidx]
  | succ j =>
    rw [up_down_round a (j + 1) hidx (by omega) hk]
    simp

theorem C5_up_then_down_returns_to_live_witness :
    (iterDown 1 (iterUp 1 c5start)).prompt_history_idx = none ∧
    (iterDown 1 (iterUp 1 c5start)).prompt_history = c5start.prompt_history ∧
    (iterDown 1 (iterUp 1 c5start)).prompt_input =
      (if 1 = 0 then c5start.prompt_input else "") :=
  C5_up_then_down_returns_to_live c5start 1 rfl (by decide)

-- ---------------------------------------------------------------------------
-- C3 / C4: connection cache disciplines
-- ---------------------------------------------------------------------------

lemma find_append_singleton {α} (p : α → Bool) (l : List α) (x : α)
    (hl : ∀ y ∈ l, p y = false) (hx : p x = true) :
    (l ++ [x]).find? p = some x := by
  induction l with
  | nil => simp [hx]
  | cons a l ih =>
    have ha := hl a (by simp)
    simp only [List.cons_append, List.find?_cons, ha]
    exact ih fun y hy => hl y (by simp [hy])

lemma findIdx_append_singleton {α} (p : α → Bool) (l : List α) (x : α)
    (hl : ∀ y ∈ l, p y = false) (hx : p x = true) :
    ∀ i, (l ++ [x]).findIdx? p i = some (i + l.length) := by
  induction l with
  | nil => intro i; simp [List.findIdx?, hx]
  | cons a l ih =>
    intro i
    have ha := hl a (by simp)
    have step : ((a :: l) ++ [x]).findIdx? p i = (l ++ [x]).findIdx? p (i + 1) := by
      simp [List.findIdx?, ha]
    rw [step, ih (fun y hy => hl y (by simp [hy])) (i + 1)]
    simp
    omega

lemma set_append_singleton {α} (l : List α) (x y : α) :
    (l ++ [x]).set l.length y = l ++ [y] := by
  induction l with
  | nil => rfl
  | cons a l ih => simp [List.set, ih]

lemma countP_zero_forall {α} (p : α → Bool) (l : List α)
    (h : l.countP p = 0) : ∀ x ∈ l, p x = false := by
  intro x hx
  have := List.countP_eq_zero.mp h x hx
  simpa using this

/-- On a successful exchange, `/connection` performs insert-if-absent on
the connections cache and leaves the node handle alone. -/
lemma cmd_connection_success (env : Env) (a : App) (rest t : String)
    (c : Connection)
    (harg : strTrim rest ≠ "")
    (hres : resolve_nick env.fs (strTrim rest) = some t)
    (htx : a.node_tx = some ())
    (hs : env.node.sendOk = true)
    (hr : env.node.createConnectionReply = some (.ok c)) :
    (cmd_connection env a rest).app.connections =
      (if a.connections.any (fun x => x.to_id == c.to_id) then a.connections
       else a.connections ++ [c]) ∧
    (cmd_connection env a rest).app.node_tx = a.node_tx := by
  simp only [cmd_connection, harg, hres, htx, hs, hr, if_false, if_neg,
    show_lines, App.set_content, App.push_event, App.push_output, Out.pureApp]
  cases hany : a.connections.any (fun x => x.to_id == c.to_id) <;> simp [hany]

/-- On a successful exchange, `/acceptConnection` performs update-or-insert
keyed on `from_id` and leaves the node handle alone. -/
lemma cmd_accept_connection_success (env : Env) (a : App) (rest : String)
    (c : Connection)
    (hparts : ¬ (splitn2 rest).length < 2)
    (htx : a.node_tx = some ())
    (hs : env.node.sendOk = true)
    (hr : env.node.acceptConnectionReply = some (.ok c)) :
    (cmd_accept_connection env a rest).app.connections =
      (match a.connections.findIdx? (fun x => x.from_id == c.from_id) with
       | some i => a.connections.set i c
       | none => a.connections ++ [c]) ∧
    (cmd_accept_connection env a rest).app.node_tx = a.node_tx := by
  simp only [cmd_accept_connection, hparts, htx, hs, hr, if_false, if_neg,
    show_lines, App.set_content, App.push_event, App.push_output, Out.pureApp]
  cases hidx : a.connections.findIdx? (fun x => x.from_id == c.from_id) <;>
    simp [hidx]

/-- C3: two `/connection` dispatches resolving to the same target id, both
node exchanges succeeding with records for that target, leave exactly one
cache entry with that target id when none was cached before, that entry is
the FIRST reply record, and the second success leaves the cache
unchanged — insert-if-absent, not insert-or-replace (which would leave the
second record instead). -/
theorem C3_connection_twice_single_entry (env1 env2 : Env) (a : App)
    (rest t : String) (c1 c2 : Connection)
    (harg : strTrim rest ≠ "")
    (hres1 : resolve_nick env1.fs (strTrim rest) = some t)
    (hres2 : resolve_nick env2.fs (strTrim rest) = some t)
    (htx : a.node_tx = some ())
    (hs1 : env1.node.sendOk = true) (hs2 : env2.node.sendOk = true)
    (hr1 : env1.node.createConnectionReply = some (.ok c1))
    (hr2 : env2.node.createConnectionReply = some (.ok c2))
    (ht1 : c1.to_id = t) (ht2 : c2.to_id = t)
    (h0 : a.connections.countP (fun c => c.to_id == t) = 0) :
    ((cmd_connection env2 (cmd_connection env1 a rest).app rest).app.connections.countP
      (fun c => c.to_id == t)) = 1 ∧
    ((cmd_connection env2 (cmd_connection env1 a rest).app rest).app.connections.find?
      (fun c => c.to_id == t)) = some c1 ∧
    (cmd_connection env2 (cmd_connection env1 a rest).app rest).app.connections =
      (cmd_connection env1 a rest).app.connections := by
  obtain ⟨hc1, htx1⟩ := cmd_connection_success env1 a rest t c1 harg hres1 htx hs1 hr1
  have hforall := countP_zero_forall _ _ h0
  have hany1 : a.connections.any (fun x => x.to_id == c1.to_id) = false := by
    rw [List.any_eq_false]
    intro x hx
    rw [ht1]
    simpa using hforall x hx
  rw [hany1, if_neg (by simp)] at hc1
  obtain ⟨hc2, _⟩ := cmd_connection_success env2 (cmd_connection env1 a rest).app
    rest t c2 harg hres2 (htx1.trans htx) hs2 hr2
  have hany2 : (cmd_connection env1 a rest).app.connections.any
      (fun x => x.to_id == c2.to_id) = true := by
    rw [hc1, List.any_eq_true]
    exact ⟨c1, by simp, by simp [ht1, ht2]⟩
  rw [hany2, if_pos rfl] at hc2
  refine ⟨?_, ?_, hc2⟩
  · rw [hc2, hc1, List.countP_append]
    simp [h0, ht1]
  · rw [hc2, hc1]
    exact find_append_singleton _ _ _
      (fun y hy => by simpa using hforall y hy) (by simp [ht1])

theorem C3_connection_twice_single_entry_witness :
    ((cmd_connection envConn2 (cmd_connection envConn1 appRunning "bob").app
        "bob").app.connections.countP (fun c => c.to_id == "idB")) = 1 ∧
    ((cmd_connection envConn2 (cmd_connection envConn1 appRunning "bob").app
        "bob").app.connections.find? (fun c => c.to_id == "idB")) = some connAB ∧
    (cmd_connection envConn2 (cmd_connection envConn1 appRunning "bob").app
        "bob").app.connections =
      (cmd_connection envConn1 appRunning "bob").app.connections :=
  ⟨(C3_connection_twice_single_entry envConn1 envConn2 appRunning "bob" "idB"
      connAB connAB2 (by decide) (by decide) (by decide) rfl rfl rfl rfl rfl rfl
      rfl (by decide)).1,
   (C3_connection_twice_single_entry envConn1 envConn2 appRunning "bob" "idB"
      connAB connAB2 (by decide) (by decide) (by decide) rfl rfl rfl rfl rfl rfl
      rfl (by decide)).2.1,
   (C3_connection_twice_single_entry envConn1 envConn2 appRunning "bob" "idB"
      connAB connAB2 (by decide) (by decide) (by decide) rfl rfl rfl rfl rfl rfl
      rfl (by decide)).2.2⟩

/-- C4: two `/acceptConnection` dispatches for the same `fromId`, both
succeeding with records carrying that `fromId`, leave exactly one cache
entry for it when none was cached before, and that entry is the record of
the latest reply (update-or-insert). -/
theorem C4_accept_twice_latest_entry (env1 env2 : Env) (a : App)
    (rest f : String) (c1 c2 : Connection)
    (hparts : ¬ (splitn2 rest).length < 2)
    (htx : a.node_tx = some ())
    (hs1 : env1.node.sendOk = true) (hs2 : env2.node.sendOk = true)
    (hr1 : env1.node.acceptConnectionReply = some (.ok c1))
    (hr2 : env2.node.acceptConnectionReply = some (.ok c2))
    (hf1 : c1.from_id = f) (hf2 : c2.from_id = f)
    (h0 : a.connections.countP (fun c => c.from_id == f) = 0) :
    ((cmd_accept_connection env2 (cmd_accept_connection env1 a rest).app
        rest).app.connections.countP (fun c => c.from_id == f)) = 1 ∧
    ((cmd_accept_connection env2 (cmd_accept_connection env1 a rest).app
        rest).app.connections.find? (fun c => c.from_id == f)) = some c2 := by
  obtain ⟨hc1, htx1⟩ := cmd_accept_connection_success env1 a rest c1 hparts htx hs1 hr1
  have hforall := countP_zero_forall _ _ h0
  have hnone1 : a.connections.findIdx? (fun x => x.from_id == c1.from_id) = none := by
    rw [List.findIdx?_eq_none_iff]
    intro x hx
    rw [hf1]
    simpa using hforall x hx
  rw [hnone1] at hc1
  dsimp only at hc1
  obtain ⟨hc2, _⟩ := cmd_accept_connection_success env2
    (cmd_accept_connection env1 a rest).app rest c2 hparts (htx1.trans htx) hs2 hr2
  have hfind2 : (cmd_accept_connection env1 a rest).app.connections.findIdx?
      (fun x => x.from_id == c2.from_id) = some a.connections.length := by
    rw [hc1]
    have := findIdx_append_singleton (fun x => x.from_id == c2.from_id)
      a.connections c1
      (fun y hy => by rw [hf2]; simpa using hforall y hy)
      (by simp [hf1, hf2]) 0
    simpa using this
  rw [hfind2, hc1] at hc2
  dsimp only at hc2
  rw [set_append_singleton] at hc2
  constructor
  · rw [hc2, List.countP_append]
    simp [h0, hf2]
  · rw [hc2]
    exact find_append_singleton _ _ _
      (fun y hy => by simpa using hforall y hy) (by simp [hf2])

theorem C4_accept_twice_latest_entry_witness :
    ((cmd_accept_connection envAcc2 (cmd_accept_connection envAcc1 appRunning
        "idC pkC").app "idC pkC").app.connections.countP
      (fun c => c.from_id == "idC")) = 1 ∧
    ((cmd_accept_connection envAcc2 (cmd_accept_connection envAcc1 appRunning
        "idC pkC").app "idC pkC").app.connections.find?
      (fun c => c.from_id == "idC")) = some connCA2 :=
  C4_accept_twice_latest_entry envAcc1 envAcc2 appRunning "idC pkC" "idC"
    connCA connCA2 (by decide) rfl rfl rfl rfl rfl rfl rfl (by decide)

-- ---------------------------------------------------------------------------
-- Frame lemmas: which fields each command leaves alone
-- ---------------------------------------------------------------------------

lemma cmd_sync_frame (a : App) :
    (cmd_sync a).node_tx = a.node_tx ∧ (cmd_sync a).node_status = a.node_status ∧
    (cmd_sync a).prompt_history = a.prompt_history := by
  refine ⟨?_, ?_, ?_⟩ <;>
    (simp only [cmd_sync, show_lines, App.set_content, App.push_event,
      App.push_output]
     split <;> rfl)

lemma cmd_decline_frame (a : App) (rest : String) :
    (cmd_decline_connection a rest).node_tx = a.node_tx ∧
    (cmd_decline_connection a rest).node_status = a.node_status ∧
    (cmd_decline_connection a rest).prompt_history = a.prompt_history := by
  refine ⟨?_, ?_, ?_⟩ <;>
    (simp only [cmd_decline_connection, show_lines, App.set_content,
      App.push_event, App.push_output]
     split <;> rfl)

lemma cmd_nick_frame (env : Env) (a : App) (rest : String) :
    (cmd_nick env a rest).app.node_tx = a.node_tx ∧
    (cmd_nick env a rest).app.node_status = a.node_status ∧
    (cmd_nick env a rest).app.prompt_history = a.prompt_history := by
  refine ⟨?_, ?_, ?_⟩ <;>
    (simp only [cmd_nick, show_lines, App.set_content, App.push_event,
      App.push_output, Out.pureApp]
     (repeat' split) <;> rfl)

lemma cmd_user_create_frame (env : Env) (a : App) (arg : String) :
    (cmd_user_create env a arg).app.node_tx = a.node_tx ∧
    (cmd_user_create env a arg).app.node_status = a.node_status ∧
    (cmd_user_create env a arg).app.prompt_history = a.prompt_history := by
  refine ⟨?_, ?_, ?_⟩ <;>
    (simp only [cmd_user_create, show_lines, App.set_content, App.push_event,
      App.push_output]
     (repeat' split) <;> rfl)

lemma cmd_user_tail_frame (env : Env) (a : App) (arg : String) :
    (cmd_user_tail env a arg).app.node_tx = a.node_tx ∧
    (cmd_user_tail env a arg).app.node_status = a.node_status ∧
    (cmd_user_tail env a arg).app.prompt_history = a.prompt_history := by
  refine ⟨?_, ?_, ?_⟩
  · simp only [cmd_user_tail, show_lines, App.set_content, App.push_output,
      Out.pureApp]
    (repeat' split) <;> first | rfl | exact (cmd_user_create_frame env _ _).1
  · simp only [cmd_user_tail, show_lines, App.set_content, App.push_output,
      Out.pureApp]
    (repeat' split) <;> first | rfl | exact (cmd_user_create_frame env _ _).2.1
  · simp only [cmd_user_tail, show_lines, App.set_content, App.push_output,
      Out.pureApp]
    (repeat' split) <;> first | rfl | exact (cmd_user_create_frame env _ _).2.2

lemma cmd_show_user_frame (env : Env) (a : App) (id : String) :
    (cmd_show_user_by_id env a id).app.node_tx = a.node_tx ∧
    (cmd_show_user_by_id env a id).app.node_status = a.node_status ∧
    (cmd_show_user_by_id env a id).app.prompt_history = a.prompt_history := by
  refine ⟨?_, ?_, ?_⟩ <;>
    (simp only [cmd_show_user_by_id, show_lines, App.set_content]
     (repeat' split) <;> rfl)

lemma cmd_user_frame (env : Env) (a : App) (rest : String) :
    (cmd_user env a rest).app.node_tx = a.node_tx ∧
    (cmd_user env a rest).app.node_status = a.node_status ∧
    (cmd_user env a rest).app.prompt_history = a.prompt_history := by
  refine ⟨?_, ?_, ?_⟩
  · simp only [cmd_user]
    (repeat' split) <;>
      first
        | exact (cmd_show_user_frame env _ _).1
        | exact (cmd_user_tail_frame env _ _).1
  · simp only [cmd_user]
    (repeat' split) <;>
      first
        | exact (cmd_show_user_frame env _ _).2.1
        | exact (cmd_user_tail_frame env _ _).2.1
  · simp only [cmd_user]
    (repeat' split) <;>
      first
        | exact (cmd_show_user_frame env _ _).2.2
        | exact (cmd_user_tail_frame env _ _).2.2

lemma cmd_users_frame (env : Env) (a : App) :
    (cmd_users env a).app.node_tx = a.node_tx ∧
    (cmd_users env a).app.node_status = a.node_status ∧
    (cmd_users env a).app.prompt_history = a.prompt_history := by
  refine ⟨?_, ?_, ?_⟩ <;>
    (simp only [cmd_users, show_lines, App.set_content, App.push_event,
      App.push_output, Out.pureApp]
     (repeat' split) <;> rfl)

lemma cmd_connection_frame (env : Env) (a : App) (rest : String) :
    (cmd_connection env a rest).app.node_tx = a.node_tx ∧
    (cmd_connection env a rest).app.node_status = a.node_status ∧
    (cmd_connection env a rest).app.prompt_history = a.prompt_history := by
  refine ⟨?_, ?_, ?_⟩ <;>
    (simp only [cmd_connection, show_lines, App.set_content, App.push_event,
      App.push_output, Out.pureApp]
     (repeat' split) <;> rfl)

lemma cmd_accept_frame (env : Env) (a : App) (rest : String) :
    (cmd_accept_connection env a rest).app.node_tx = a.node_tx ∧
    (cmd_accept_connection env a rest).app.node_status = a.node_status ∧
    (cmd_accept_connection env a rest).app.prompt_history = a.prompt_history := by
  refine ⟨?_, ?_, ?_⟩ <;>
    (simp only [cmd_accept_connection, show_lines, App.set_content,
      App.push_event, App.push_output, Out.pureApp]
     (repeat' split) <;> rfl)

lemma send_message_frame (env : Env) (a : App) (nick to_id plugin_type : String)
    (plugin_body : Json) :
    (send_message env a nick to_id plugin_type plugin_body).app.node_tx = a.node_tx ∧
    (send_message env a nick to_id plugin_type plugin_body).app.node_status =
      a.node_status ∧
    (send_message env a nick to_id plugin_type plugin_body).app.prompt_history =
      a.prompt_history := by
  refine ⟨?_, ?_, ?_⟩ <;>
    (simp only [send_message, show_lines, App.set_content, App.push_event,
      App.push_output, Out.pureApp]
     (repeat' split) <;> rfl)

lemma cmd_message_frame (env : Env) (a : App) (rest : String) :
    (cmd_message env a rest).app.node_tx = a.node_tx ∧
    (cmd_message env a rest).app.node_status = a.node_status ∧
    (cmd_message env a rest).app.prompt_history = a.prompt_history := by
  refine ⟨?_, ?_, ?_⟩
  · simp only [cmd_message, show_lines, App.set_content, Out.pureApp]
    (repeat' split) <;> first | rfl | exact (send_message_frame env _ _ _ _ _).1
  · simp only [cmd_message, show_lines, App.set_content, Out.pureApp]
    (repeat' split) <;> first | rfl | exact (send_message_frame env _ _ _ _ _).2.1
  · simp only [cmd_message, show_lines, App.set_content, Out.pureApp]
    (repeat' split) <;> first | rfl | exact (send_message_frame env _ _ _ _ _).2.2

lemma cmd_message_plugin_frame (env : Env) (a : App) (rest : String) :
    (cmd_message_plugin env a rest).app.node_tx = a.node_tx ∧
    (cmd_message_plugin env a rest).app.node_status = a.node_status ∧
    (cmd_message_plugin env a rest).app.prompt_history = a.prompt_history := by
  refine ⟨?_, ?_, ?_⟩
  · simp only [cmd_message_plugin, show_lines, App.set_content, Out.pureApp]
    (repeat' split) <;> first | rfl | exact (send_message_frame env _ _ _ _ _).1
  · simp only [cmd_message_plugin, show_lines, App.set_content, Out.pureApp]
    (repeat' split) <;> first | rfl | exact (send_message_frame env _ _ _ _ _).2.1
  · simp only [cmd_message_plugin, show_lines, App.set_content, Out.pureApp]
    (repeat' split) <;> first | rfl | exact (send_message_frame env _ _ _ _ _).2.2

lemma cmd_start_node_history (env : Env) (a : App) :
    (cmd_start_node env a).app.prompt_history = a.prompt_history := by
  simp only [cmd_start_node, show_lines, App.set_content, App.push_event,
    App.push_output, Out.pureApp]
  (repeat' split) <;> rfl

lemma cmd_stop_node_history (env : Env) (a : App) :
    (cmd_stop_node env a).app.prompt_history = a.prompt_history := by
  simp only [cmd_stop_node, show_lines, App.set_content, App.push_event,
    App.push_output, Out.pureApp]
  (repeat' split) <;> rfl

lemma cmd_restart_node_history (env : Env) (a : App) :
    (cmd_restart_node env a).app.prompt_history = a.prompt_history := by
  simp only [cmd_restart_node]
  split
  · exact cmd_stop_node_history env _
  · exact (cmd_start_node_history env _).trans (cmd_stop_node_history env _)

lemma cmd_port_history (env : Env) (a : App) (rest : String) :
    (cmd_port env a rest).app.prompt_history = a.prompt_history := by
  simp only [cmd_port, show_lines, App.set_content, App.push_event,
    App.push_output, Out.pureApp]
  (repeat' split) <;> first | rfl | exact cmd_restart_node_history env _

lemma node_consistent_of_frame {a b : App} (h1 : b.node_tx = a.node_tx)
    (h2 : b.node_status = a.node_status) (h : node_consistent a = true) :
    node_consistent b = true := by
  unfold node_consistent at *
  rw [h1, h2]
  exact h

lemma cmd_start_node_consistent (env : Env) (a : App)
    (h : node_consistent a = true) :
    node_consistent (cmd_start_node env a).app = true := by
  simp only [cmd_start_node, show_lines, App.set_content, App.push_event,
    App.push_output, Out.pureApp]
  (repeat' split) <;> first | exact h | rfl

lemma cmd_stop_node_consistent (env : Env) (a : App)
    (h : node_consistent a = true) :
    node_consistent (cmd_stop_node env a).app = true := by
  simp only [cmd_stop_node, show_lines, App.set_content, App.push_event,
    App.push_output, Out.pureApp]
  (repeat' split) <;> first | rfl | exact h

lemma cmd_restart_node_consistent (env : Env) (a : App)
    (h : node_consistent a = true) :
    node_consistent (cmd_restart_node env a).app = true := by
  simp only [cmd_restart_node]
  split
  · exact cmd_stop_node_consistent env _ h
  · exact cmd_start_node_consistent env _ (cmd_stop_node_consistent env _ h)

lemma cmd_port_consistent (env : Env) (a : App) (rest : String)
    (h : node_consistent a = true) :
    node_consistent (cmd_port env a rest).app = true := by
  simp only [cmd_port, show_lines, App.set_content, App.push_event,
    App.push_output, Out.pureApp]
  (repeat' split) <;> first | exact h | exact cmd_restart_node_consistent env _ h

set_option maxHeartbeats 1000000 in
lemma dispatch_history (env : Env) (a : App) (cmd rest : String) :
    (dispatch env a cmd rest).app.prompt_history = a.prompt_history := by
  unfold dispatch
  by_cases h1 : cmd = "/help"
  · rw [if_pos h1]
    rfl
  rw [if_neg h1]
  by_cases h2 : cmd = "/quit"
  · rw [if_pos h2]
    rfl
  rw [if_neg h2]
  by_cases h3 : cmd = "/events"
  · rw [if_pos h3]
    rfl
  rw [if_neg h3]
  by_cases h4 : cmd = "/console"
  · rw [if_pos h4]
    rfl
  rw [if_neg h4]
  by_cases h5 : cmd = "/messages"
  · rw [if_pos h5]
    rfl
  rw [if_neg h5]
  by_cases h6 : cmd = "/startNode"
  · rw [if_pos h6]
    exact cmd_start_node_history env a
  rw [if_neg h6]
  by_cases h7 : cmd = "/stopNode"
  · rw [if_pos h7]
    exact cmd_stop_node_history env a
  rw [if_neg h7]
  by_cases h8 : cmd = "/restartNode"
  · rw [if_pos h8]
    exact cmd_restart_node_history env a
  rw [if_neg h8]
  by_cases h9 : cmd = "/port"
  · rw [if_pos h9]
    exact cmd_port_history env a rest
  rw [if_neg h9]
  by_cases h10 : cmd = "/sync"
  · rw [if_pos h10]
    exact (cmd_sync_frame a).2.2
  rw [if_neg h10]
  by_cases h11 : cmd = "/peers"
  · rw [if_pos h11]
    rfl
  rw [if_neg h11]
  by_cases h12 : cmd = "/nick"
  · rw [if_pos h12]
    exact (cmd_nick_frame env a rest).2.2
  rw [if_neg h12]
  by_cases h13 : cmd = "/user"
  · rw [if_pos h13]
    exact (cmd_user_frame env a rest).2.2
  rw [if_neg h13]
  by_cases h14 : cmd = "/users"
  · rw [if_pos h14]
    exact (cmd_users_frame env a).2.2
  rw [if_neg h14]
  by_cases h15 : cmd = "/connection"
  · rw [if_pos h15]
    exact (cmd_connection_frame env a rest).2.2
  rw [if_neg h15]
  by_cases h16 : cmd = "/connections"
  · rw [if_pos h16]
    rfl
  rw [if_neg h16]
  by_cases h17 : cmd = "/connectionsPending"
  · rw [if_pos h17]
    rfl
  rw [if_neg h17]
  by_cases h18 : cmd = "/acceptConnection"
  · rw [if_pos h18]
    exact (cmd_accept_frame env a rest).2.2
  rw [if_neg h18]
  by_cases h19 : cmd = "/declineConnection"
  · rw [if_pos h19]
    exact (cmd_decline_frame a rest).2.2
  rw [if_neg h19]
  by_cases h20 : cmd = "/message"
  · rw [if_pos h20]
    exact (cmd_message_frame env a rest).2.2
  rw [if_neg h20]
  by_cases h21 : cmd = "/messagePlugin"
  · rw [if_pos h21]
    exact (cmd_message_plugin_frame env a rest).2.2
  rw [if_neg h21]
  rfl

lemma execute_history (env : Env) (a : App) (raw : String) :
    (execute env a raw).app.prompt_history = a.prompt_history := by
  unfold execute
  split
  · rfl
  · exact dispatch_history env a _ _

set_option maxHeartbeats 1000000 in
lemma dispatch_consistent (env : Env) (a : App) (cmd rest : String)
    (h : node_consistent a = true) :
    node_consistent (dispatch env a cmd rest).app = true := by
  unfold dispatch
  by_cases h1 : cmd = "/help"
  · rw [if_pos h1]
    exact h
  rw [if_neg h1]
  by_cases h2 : cmd = "/quit"
  · rw [if_pos h2]
    exact h
  rw [if_neg h2]
  by_cases h3 : cmd = "/events"
  · rw [if_pos h3]
    exact h
  rw [if_neg h3]
  by_cases h4 : cmd = "/console"
  · rw [if_pos h4]
    exact h
  rw [if_neg h4]
  by_cases h5 : cmd = "/messages"
  · rw [if_pos h5]
    exact h
  rw [if_neg h5]
  by_cases h6 : cmd = "/startNode"
  · rw [if_pos h6]
    exact cmd_start_node_consistent env a h
  rw [if_neg h6]
  by_cases h7 : cmd = "/stopNode"
  · rw [if_pos h7]
    exact cmd_stop_node_consistent env a h
  rw [if_neg h7]
  by_cases h8 : cmd = "/restartNode"
  · rw [if_pos h8]
    exact cmd_restart_node_consistent env a h
  rw [if_neg h8]
  by_cases h9 : cmd = "/port"
  · rw [if_pos h9]
    exact cmd_port_consistent env a rest h
  rw [if_neg h9]
  by_cases h10 : cmd = "/sync"
  · rw [if_pos h10]
    exact node_consistent_of_frame (cmd_sync_frame a).1 (cmd_sync_frame a).2.1 h
  rw [if_neg h10]
  by_cases h11 : cmd = "/peers"
  · rw [if_pos h11]
    exact h
  rw [if_neg h11]
  by_cases h12 : cmd = "/nick"
  · rw [if_pos h12]
    exact node_consistent_of_frame (cmd_nick_frame env a rest).1 (cmd_nick_frame env a rest).2.1 h
  rw [if_neg h12]
  by_cases h13 : cmd = "/user"
  · rw [if_pos h13]
    exact node_consistent_of_frame (cmd_user_frame env a rest).1 (cmd_user_frame env a rest).2.1 h
  rw [if_neg h13]
  by_cases h14 : cmd = "/users"
  · rw [if_pos h14]
    exact node_consistent_of_frame (cmd_users_frame env a).1 (cmd_users_frame env a).2.1 h
  rw [if_neg h14]
  by_cases h15 : cmd = "/connection"
  · rw [if_pos h15]
    exact node_consistent_of_frame (cmd_connection_frame env a rest).1 (cmd_connection_frame env a rest).2.1 h
  rw [if_neg h15]
  by_cases h16 : cmd = "/connections"
  · rw [if_pos h16]
    exact h
  rw [if_neg h16]
  by_cases h17 : cmd = "/connectionsPending"
  · rw [if_pos h17]
    exact h
  rw [if_neg h17]
  by_cases h18 : cmd = "/acceptConnection"
  · rw [if_pos h18]
    exact node_consistent_of_frame (cmd_accept_frame env a rest).1 (cmd_accept_frame env a rest).2.1 h
  rw [if_neg h18]
  by_cases h19 : cmd = "/declineConnection"
  · rw [if_pos h19]
    exact node_consistent_of_frame (cmd_decline_frame a rest).1 (cmd_decline_frame a rest).2.1 h
  rw [if_neg h19]
  by_cases h20 : cmd = "/message"
  · rw [if_pos h20]
    exact node_consistent_of_frame (cmd_message_frame env a rest).1 (cmd_message_frame env a rest).2.1 h
  rw [if_neg h20]
  by_cases h21 : cmd = "/messagePlugin"
  · rw [if_pos h21]
    exact node_consistent_of_frame (cmd_message_plugin_frame env a rest).1 (cmd_message_plugin_frame env a rest).2.1 h
  rw [if_neg h21]
  exact h

lemma execute_consistent (env : Env) (a : App) (raw : String)
    (h : node_consistent a = true) :
    node_consistent (execute env a raw).app = true := by
  unfold execute
  split
  · exact h
  · exact dispatch_consistent env a _ _ h

/-- C1: the node handle and the node status are kept in lockstep by every
command dispatch: the initial state is consistent, and dispatching any raw
line in any collaborator environment preserves `node_tx.isSome =
node_status.isRunning` — so no reachable state pairs `Running` with an
absent handle or `Stopped` with a present one. -/
theorem C1_handle_mirrors_status :
    node_consistent App.new = true ∧
    ∀ (env : Env) (a : App) (raw : String), node_consistent a = true →
      node_consistent (execute env a raw).app = true :=
  ⟨rfl, fun env a raw h => execute_consistent env a raw h⟩

theorem C1_handle_mirrors_status_witness :
    node_consistent (execute envDefault App.new "/startNode").app = true :=
  C1_handle_mirrors_status.2 envDefault App.new "/startNode" rfl

-- ---------------------------------------------------------------------------
-- C6: no consecutive duplicate history entries
-- ---------------------------------------------------------------------------

lemma chain_ne_append (l : List String) (x : String)
    (h : List.Chain' (· ≠ ·) l) (hx : ¬ l.getLast? = some x) :
    List.Chain' (· ≠ ·) (l ++ [x]) := by
  rw [List.chain'_append]
  refine ⟨h, List.chain'_singleton x, fun y hy z hz => ?_⟩
  have hz' : z = x := by
    have := hz
    simp only [List.head?_cons, Option.mem_def, Option.some.injEq] at this
    exact this.symm
  subst hz'
  intro hyx
  subst hyx
  exact hx (by simpa using hy)

lemma scroll_history_up_history (a : App) :
    (scroll_history_up a).prompt_history = a.prompt_history := by
  simp only [scroll_history_up]
  split <;> rfl

lemma scroll_history_down_history (a : App) :
    (scroll_history_down a).prompt_history = a.prompt_history := by
  simp only [scroll_history_down]
  (repeat' split) <;> rfl

lemma handle_key_enter_history (env : Env) (a : App) :
    (handle_key env a .enter).app.prompt_history =
      (if strTrim a.prompt_input = "" then a.prompt_history
       else if a.prompt_history.getLast? = some (strTrim a.prompt_input) then
         a.prompt_history
       else a.prompt_history ++ [strTrim a.prompt_input]) := by
  by_cases h1 : strTrim a.prompt_input = ""
  · simp [handle_key, h1]
  · by_cases h2 : a.prompt_history.getLast? = some (strTrim a.prompt_input)
    · simp only [handle_key, if_neg h1, if_pos h2]
      cases he : (execute env { a with prompt_history_idx := none, prompt_input := "" }
          (strTrim a.prompt_input)).err with
      | some e =>
        simp [he, execute_history, App.push_event, App.push_output, h1, h2]
      | none => simp [he, execute_history, h1, h2]
    · simp only [handle_key, if_neg h1, if_neg h2]
      cases he : (execute env
          { a with prompt_history := a.prompt_history ++ [strTrim a.prompt_input],
                   prompt_history_idx := none, prompt_input := "" }
          (strTrim a.prompt_input)).err with
      | some e =>
        simp [he, execute_history, App.push_event, App.push_output, h1, h2]
      | none => simp [he, execute_history, h1, h2]

lemma handle_key_chain (env : Env) (a : App) (k : KeyCode)
    (h : List.Chain' (· ≠ ·) a.prompt_history) :
    List.Chain' (· ≠ ·) (handle_key env a k).app.prompt_history := by
  cases k with
  | enter =>
    rw [handle_key_enter_history]
    split_ifs with h1 h2
    · exact h
    · exact h
    · exact chain_ne_append _ _ h h2
  | up =>
    have hh : (handle_key env a .up).app.prompt_history = a.prompt_history :=
      scroll_history_up_history a
    rw [hh]
    exact h
  | down =>
    have hh : (handle_key env a .down).app.prompt_history = a.prompt_history :=
      scroll_history_down_history a
    rw [hh]
    exact h
  | ctrlC => exact h
  | esc => exact h
  | pageUp => exact h
  | pageDown => exact h
  | backspace => exact h
  | char c => exact h
  | other => exact h

lemma runKeys_chain (steps : List (Env × KeyCode)) : ∀ a : App,
    List.Chain' (· ≠ ·) a.prompt_history →
    List.Chain' (· ≠ ·) (runKeys a steps).prompt_history := by
  induction steps with
  | nil => exact fun a h => h
  | cons s rest ih =>
    intro a h
    obtain ⟨e, k⟩ := s
    exact ih _ (handle_key_chain e a k h)

/-- C6: for every sequence of key events (Enter submissions included),
starting from the fresh session, the prompt history never contains two
consecutive equal entries — a submitted line equal to the current last
entry is not appended again. -/
theorem C6_no_consecutive_duplicate_history (steps : List (Env × KeyCode)) :
    List.Chain' (· ≠ ·) ((runKeys App.new steps).prompt_history) :=
  runKeys_chain steps App.new (by simp [App.new])

-- ---------------------------------------------------------------------------
-- C2: node-backed commands short-circuit without a handle
-- ---------------------------------------------------------------------------

lemma cmd_show_user_node_none (env : Env) (a : App) (id : String)
    (hn : a.node_tx = none) :
    cmd_show_user_by_id env a id =
      Out.pureApp (show_lines a "User" ["Node is not running. Use /startNode first."]) := by
  simp [cmd_show_user_by_id, hn]

lemma cmd_user_tail_node_none (env : Env) (a : App) (arg : String)
    (hn : a.node_tx = none) :
    cmd_user_tail env a arg =
      Out.pureApp (show_lines a "User" ["Node is not running. Use /startNode first."]) := by
  simp [cmd_user_tail, hn]

lemma cmd_user_node_none (env : Env) (a : App) (rest : String)
    (hn : a.node_tx = none) :
    cmd_user env a rest =
      Out.pureApp (show_lines a "User" ["Node is not running. Use /startNode first."]) := by
  simp only [cmd_user]
  split_ifs with h
  · cases hres : resolve_nick env.fs (strTrim rest) with
    | some id => exact cmd_show_user_node_none env a id hn
    | none => exact cmd_user_tail_node_none env a _ hn
  · exact cmd_user_tail_node_none env a _ hn

lemma cmd_connection_node_none (env : Env) (a : App) (rest t : String)
    (harg : strTrim rest ≠ "")
    (hres : resolve_nick env.fs (strTrim rest) = some t)
    (hn : a.node_tx = none) :
    cmd_connection env a rest =
      Out.pureApp (show_lines a "Connection"
        ["Node is not running. Use /startNode first."]) := by
  simp [cmd_connection, harg, hres, hn]

lemma cmd_accept_node_none (env : Env) (a : App) (rest : String)
    (hparts : ¬ (splitn2 rest).length < 2)
    (hn : a.node_tx = none) :
    cmd_accept_connection env a rest =
      Out.pureApp (show_lines a "Accept Connection"
        ["Node is not running. Use /startNode first."]) := by
  simp [cmd_accept_connection, hparts, hn]

lemma send_message_node_none (env : Env) (a : App) (nick to_id plugin_type : String)
    (plugin_body : Json) (hn : a.node_tx = none) :
    send_message env a nick to_id plugin_type plugin_body =
      Out.pureApp (show_lines a "Message"
        ["Node is not running. Use /startNode first."]) := by
  simp [send_message, hn]

lemma cmd_message_node_none (env : Env) (a : App) (rest t : String)
    (hparts : ¬ (splitn2 rest).length < 2)
    (hres : resolve_nick env.fs (strTrim ((splitn2 rest).getD 0 "")) = some t)
    (hn : a.node_tx = none) :
    cmd_message env a rest =
      Out.pureApp (show_lines a "Message"
        ["Node is not running. Use /startNode first."]) := by
  simp only [List.getD_eq_getElem?_getD] at hres
  simp [cmd_message, hparts, hres, send_message, hn]

lemma cmd_message_plugin_node_none (env : Env) (a : App) (rest t : String)
    (hparts : ¬ (splitn3 rest).length < 3)
    (hres : resolve_nick env.fs (strTrim ((splitn3 rest).getD 0 "")) = some t)
    (hn : a.node_tx = none) :
    cmd_message_plugin env a rest =
      Out.pureApp (show_lines a "Message"
        ["Node is not running. Use /startNode first."]) := by
  simp only [List.getD_eq_getElem?_getD] at hres
  simp [cmd_message_plugin, hparts, hres, send_message, hn]

lemma cmd_sync_node_none (a : App) (hn : a.node_tx = none) :
    cmd_sync a =
      show_lines a "Sync" ["Node is not running. Use /startNode first."] := by
  simp [cmd_sync, hn]

/-- C2: every node-backed command, dispatched with no node handle, renders
the uniform "Node is not running. Use /startNode first." view, submits
nothing on the node channel, and leaves the cached collections (peers,
users, connections, messages) and the prompt history unchanged — `/user`
with any argument, `/connection` with a resolvable nick,
`/acceptConnection` with both arguments, `/message` and `/messagePlugin`
with a resolvable nick (the short-circuit fires before the local-user
check), and `/sync`. -/
theorem C2_node_absent_short_circuits :
    (∀ (env : Env) (a : App) (rest : String), a.node_tx = none →
      (cmd_user env a rest).app.content_lines =
        ["Node is not running. Use /startNode first."] ∧
      (cmd_user env a rest).sent = [] ∧
      cachesUnchanged a (cmd_user env a rest).app ∧
      (cmd_user env a rest).app.prompt_history = a.prompt_history) ∧
    (∀ (env : Env) (a : App) (rest t : String), a.node_tx = none →
      strTrim rest ≠ "" → resolve_nick env.fs (strTrim rest) = some t →
      (cmd_connection env a rest).app.content_lines =
        ["Node is not running. Use /startNode first."] ∧
      (cmd_connection env a rest).sent = [] ∧
      cachesUnchanged a (cmd_connection env a rest).app ∧
      (cmd_connection env a rest).app.prompt_history = a.prompt_history) ∧
    (∀ (env : Env) (a : App) (rest : String), a.node_tx = none →
      ¬ (splitn2 rest).length < 2 →
      (cmd_accept_connection env a rest).app.content_lines =
        ["Node is not running. Use /startNode first."] ∧
      (cmd_accept_connection env a rest).sent = [] ∧
      cachesUnchanged a (cmd_accept_connection env a rest).app ∧
      (cmd_accept_connection env a rest).app.prompt_history = a.prompt_history) ∧
    (∀ (env : Env) (a : App) (nick to_id plugin_type : String) (plugin_body : Json),
      a.node_tx = none →
      (send_message env a nick to_id plugin_type plugin_body).app.content_lines =
        ["Node is not running. Use /startNode first."] ∧
      (send_message env a nick to_id plugin_type plugin_body).sent = [] ∧
      cachesUnchanged a (send_message env a nick to_id plugin_type plugin_body).app ∧
      (send_message env a nick to_id plugin_type plugin_body).app.prompt_history =
        a.prompt_history) ∧
    (∀ (env : Env) (a : App) (rest t : String), a.node_tx = none →
      ¬ (splitn2 rest).length < 2 →
      resolve_nick env.fs (strTrim ((splitn2 rest).getD 0 "")) = some t →
      (cmd_message env a rest).app.content_lines =
        ["Node is not running. Use /startNode first."] ∧
      (cmd_message env a rest).sent = [] ∧
      cachesUnchanged a (cmd_message env a rest).app ∧
      (cmd_message env a rest).app.prompt_history = a.prompt_history) ∧
    (∀ (env : Env) (a : App) (rest t : String), a.node_tx = none →
      ¬ (splitn3 rest).length < 3 →
      resolve_nick env.fs (strTrim ((splitn3 rest).getD 0 "")) = some t →
      (cmd_message_plugin env a rest).app.content_lines =
        ["Node is not running. Use /startNode first."] ∧
      (cmd_message_plugin env a rest).sent = [] ∧
      cachesUnchanged a (cmd_message_plugin env a rest).app ∧
      (cmd_message_plugin env a rest).app.prompt_history = a.prompt_history) ∧
    (∀ (a : App), a.node_tx = none →
      (cmd_sync a).content_lines =
        ["Node is not running. Use /startNode first."] ∧
      cachesUnchanged a (cmd_sync a) ∧
      (cmd_sync a).prompt_history = a.prompt_history) := by
  refine ⟨?_, ?_, ?_, ?_, ?_, ?_, ?_⟩
  · intro env a rest hn
    rw [cmd_user_node_none env a rest hn]
    simp [Out.pureApp, show_lines, App.set_content, cachesUnchanged]
  · intro env a rest t hn harg hres
    rw [cmd_connection_node_none env a rest t harg hres hn]
    simp [Out.pureApp, show_lines, App.set_content, cachesUnchanged]
  · intro env a rest hn hparts
    rw [cmd_accept_node_none env a rest hparts hn]
    simp [Out.pureApp, show_lines, App.set_content, cachesUnchanged]
  · intro env a nick to_id plugin_type plugin_body hn
    rw [send_message_node_none env a nick to_id plugin_type plugin_body hn]
    simp [Out.pureApp, show_lines, App.set_content, cachesUnchanged]
  · intro env a rest t hn hparts hres
    rw [cmd_message_node_none env a rest t hparts hres hn]
    simp [Out.pureApp, show_lines, App.set_content, cachesUnchanged]
  · intro env a rest t hn hparts hres
    rw [cmd_message_plugin_node_none env a rest t hparts hres hn]
    simp [Out.pureApp, show_lines, App.set_content, cachesUnchanged]
  · intro a hn
    rw [cmd_sync_node_none a hn]
    simp [show_lines, App.set_content, cachesUnchanged]

theorem C2_node_absent_short_circuits_witness :
    (cmd_user envDefault App.new "").app.content_lines =
      ["Node is not running. Use /startNode first."] ∧
    (cmd_connection { envDefault with fs := fsBob } App.new "bob").sent = [] ∧
    cachesUnchanged App.new
      (cmd_accept_connection envDefault App.new "idC pkC").app ∧
    (send_message envDefault App.new "bob" "idB" "text"
      (Json.textObj "hi")).sent = [] ∧
    (cmd_message { envDefault with fs := fsBob } App.new "bob hi").sent = [] ∧
    (cmd_message_plugin { envDefault with fs := fsBob } App.new
      "bob note body").sent = [] ∧
    (cmd_sync App.new).content_lines =
      ["Node is not running. Use /startNode first."] :=
  ⟨(C2_node_absent_short_circuits.1 envDefault App.new "" rfl).1,
   (C2_node_absent_short_circuits.2.1 { envDefault with fs := fsBob } App.new
      "bob" "idB" rfl (by decide) (by decide)).2.1,
   (C2_node_absent_short_circuits.2.2.1 envDefault App.new "idC pkC" rfl
      (by decide)).2.2.1,
   (C2_node_absent_short_circuits.2.2.2.1 envDefault App.new "bob" "idB" "text"
      (Json.textObj "hi") rfl).2.1,
   (C2_node_absent_short_circuits.2.2.2.2.1 { envDefault with fs := fsBob }
      App.new "bob hi" "idB" rfl (by decide) (by decide)).2.1,
   (C2_node_absent_short_circuits.2.2.2.2.2.1 { envDefault with fs := fsBob }
      App.new "bob note body" "idB" rfl (by decide) (by decide)).2.1,
   (C2_node_absent_short_circuits.2.2.2.2.2.2 App.new rfl).1⟩

end AccordTui
